import Mathlib

/-!
Verification of the AVWatch data normalization and geocoding pipeline
(seeding script variant with real geocoding, `scripts/seed-data.ts` of the
geocoding-enabled kind).

The TypeScript source is shallowly embedded:
* JS strings are Lean `String`; helpers work over `String.data` (`List Char`).
  The source only exercises ASCII text, so `toUpperCase`, `toLowerCase` and
  `trim` are modelled on ASCII.
* JS numbers are modelled as `ℚ` (the pipeline only compares, adds and scales
  coordinates; no float rounding is relevant to the verified properties).
* Timestamps (`Date` values) are modelled as minutes since the Unix epoch,
  computed with the Gregorian civil-calendar day-number algorithm that the
  ECMAScript `MakeDay` operation specifies.  The runtime time zone is taken
  to be UTC.
* External effects (the Mapbox geocoding service, `Math.random`, the wall
  clock, and the generic `new Date(string)` fallback parser) are oracles
  collected in an `Env` record; theorems quantify over them.  The narrative
  location extractor (`extractLocationFromNarrative`, a heuristic regex rule
  list) is likewise carried as an oracle `Env.extract`: none of the verified
  claims depends on which fragment it extracts, only on whether it extracts
  one, so theorems hold for every extractor.
* The per-run street-geocode memoization cache is threaded explicitly as
  `StreetCache` state.
-/

namespace AVWatch

/-! ## JS string primitives (ASCII fragment) -/

/-- ASCII uppercase of one character, as `String.prototype.toUpperCase`
acts on ASCII input. -/
def jsCharUpper (c : Char) : Char :=
  if 'a' ≤ c ∧ c ≤ 'z' then Char.ofNat (c.toNat - 32) else c

/-- ASCII lowercase of one character, as `String.prototype.toLowerCase`
acts on ASCII input. -/
def jsCharLower (c : Char) : Char :=
  if 'A' ≤ c ∧ c ≤ 'Z' then Char.ofNat (c.toNat + 32) else c

/-- `s.toUpperCase()` (ASCII fragment). -/
def jsUpper (s : String) : String := String.mk (s.data.map jsCharUpper)

/-- `s.toLowerCase()` (ASCII fragment). -/
def jsLower (s : String) : String := String.mk (s.data.map jsCharLower)

/-- `s.trim()`: strip leading and trailing whitespace. -/
def jsTrim (s : String) : String :=
  String.mk (((s.data.dropWhile Char.isWhitespace).reverse.dropWhile
    Char.isWhitespace).reverse)

/-- Whether `needle` starts `hay` (character lists). -/
def listStarts : List Char → List Char → Bool
  | [], _ => true
  | _ :: _, [] => false
  | a :: as, b :: bs => a == b && listStarts as bs

/-- Whether `needle` occurs contiguously in `hay` (character lists). -/
def listInfixOf : List Char → List Char → Bool
  | needle, [] => listStarts needle []
  | needle, h :: t => listStarts needle (h :: t) || listInfixOf needle t

/-- `hay.includes(needle)`. -/
def strIncludes (hay needle : String) : Bool := listInfixOf needle.data hay.data

/-- JS string truthiness choice `a || b`: the only falsy string is `""`. -/
def jsOr (a b : String) : String := if a = "" then b else a

/-! ## JS numeric parsing -/

/-- Numeric value of a decimal digit character. -/
def digitVal (c : Char) : ℕ := c.toNat - 48

/-- Split off the maximal run of leading decimal digits. -/
def takeDigits (l : List Char) : List Char × List Char :=
  (l.takeWhile Char.isDigit, l.dropWhile Char.isDigit)

/-- Value of a digit run, most significant first. -/
def natOfDigits (ds : List Char) : ℕ :=
  ds.foldl (fun a c => 10 * a + digitVal c) 0

/-- Leading whitespace removed, as both `parseInt` and `parseFloat` do. -/
def dropLeadingWs (l : List Char) : List Char := l.dropWhile Char.isWhitespace

/-- `parseInt(s, 10)`: optional sign then a nonempty leading digit run;
`none` models `NaN`.  Trailing junk is ignored.  (The radix-16 autodetect
for a `0x` prefix is not modelled; the pipeline feeds decimal counts.) -/
def jsParseInt (s : String) : Option ℤ :=
  match dropLeadingWs s.data with
  | '-' :: rest =>
    match takeDigits rest with
    | ([], _) => none
    | (ds, _) => some (-(natOfDigits ds : ℤ))
  | '+' :: rest =>
    match takeDigits rest with
    | ([], _) => none
    | (ds, _) => some (natOfDigits ds : ℤ)
  | l =>
    match takeDigits l with
    | ([], _) => none
    | (ds, _) => some (natOfDigits ds : ℤ)

/-- `parseInt(s) || 0`: `NaN` becomes `0` (and a parsed `0` stays `0`). -/
def jsParseIntOr0 (s : String) : ℤ := (jsParseInt s).getD 0

/-- Exponent suffix of a float literal after `e`/`E`; an incomplete
exponent contributes nothing, as `parseFloat` then stops before the `e`. -/
def parseExpPart (l : List Char) : ℤ :=
  match l with
  | '-' :: r =>
    match takeDigits r with
    | ([], _) => 0
    | (ds, _) => -(natOfDigits ds : ℤ)
  | '+' :: r =>
    match takeDigits r with
    | ([], _) => 0
    | (ds, _) => (natOfDigits ds : ℤ)
  | r =>
    match takeDigits r with
    | ([], _) => 0
    | (ds, _) => (natOfDigits ds : ℤ)

/-- Sign prefix of a float literal: the sign factor and the remainder. -/
def splitSign (l : List Char) : ℚ × List Char :=
  match l with
  | '-' :: r => (-1, r)
  | '+' :: r => (1, r)
  | _ => (1, l)

/-- Fraction digits after a decimal point, when one is present. -/
def splitFrac (l : List Char) : List Char × List Char :=
  match l with
  | '.' :: r => takeDigits r
  | _ => ([], l)

/-- Exponent marker of a float literal, when one is present. -/
def expOf (l : List Char) : ℤ :=
  match l with
  | 'e' :: r => parseExpPart r
  | 'E' :: r => parseExpPart r
  | _ => 0

/-- `parseFloat(s)`: optional sign, digits, optional fraction, optional
exponent; `none` models `NaN` (no digits at all).  Trailing junk is
ignored.  (The `Infinity` literal is not modelled; the pipeline feeds
decimal coordinates.) -/
def jsParseFloat (s : String) : Option ℚ :=
  let sr := splitSign (dropLeadingWs s.data)
  let ip := takeDigits sr.2
  let fr := splitFrac ip.2
  if ip.1 = [] ∧ fr.1 = [] then none
  else some (sr.1 * ((natOfDigits ip.1 : ℚ)
    + (natOfDigits fr.1 : ℚ) / (10 : ℚ) ^ fr.1.length) * (10 : ℚ) ^ expOf fr.2)

/-! ## Date model

A `Date` is modelled by its timestamp in minutes since the Unix epoch
(the pipeline never uses sub-minute precision).  `new Date(year, month,
day)` follows the ECMAScript `MakeDay` operation: the month is normalized
into the year, the day offsets freely (rolling over month ends), and an
integer year between 0 and 99 is remapped to 1900--1999. -/

/-- Day number of a Gregorian civil date (1970-01-01 is day 0), for any
integer year and a month in `1..12`; the standard era-based algorithm. -/
def daysFromCivil (y m d : ℤ) : ℤ :=
  let y2 := if m ≤ 2 then y - 1 else y
  let era := Int.fdiv y2 400
  let yoe := y2 - era * 400
  let mp := Int.emod (m + 9) 12
  let doy := Int.fdiv (153 * mp + 2) 5 + d - 1
  let doe := yoe * 365 + Int.fdiv yoe 4 - Int.fdiv yoe 100 + doy
  era * 146097 + doe - 719468

/-- `new Date(year, month, day).getTime()` scaled to whole days:
the ECMAScript `MakeDay(year, month, day)` with the constructor's
two-digit-year remapping into 1900--1999. -/
def jsMakeDay (year month day : ℤ) : ℤ :=
  let yAdj := if 0 ≤ year ∧ year ≤ 99 then year + 1900 else year
  let ym := yAdj + Int.fdiv month 12
  let mn := Int.emod month 12
  daysFromCivil ym (mn + 1) 1 + (day - 1)

/-- Whether a year is a Gregorian leap year. -/
def isLeapYear (y : ℤ) : Bool :=
  (Int.emod y 4 == 0 && Int.emod y 100 != 0) || Int.emod y 400 == 0

/-- Number of days in a month (`m` in `1..12`). -/
def daysInMonth (y m : ℤ) : ℤ :=
  if m = 2 then (if isLeapYear y then 29 else 28)
  else if m = 4 ∨ m = 6 ∨ m = 9 ∨ m = 11 then 30
  else 31

/-- The `MONTH_MAP` object: three-letter month tag to zero-based month,
in source order. -/
def MONTH_TABLE : List (String × ℕ) :=
  [("JAN", 0), ("FEB", 1), ("MAR", 2), ("APR", 3), ("MAY", 4), ("JUN", 5),
   ("JUL", 6), ("AUG", 7), ("SEP", 8), ("OCT", 9), ("NOV", 10), ("DEC", 11)]

/-- `MONTH_MAP[s]`: object property lookup (keys are unique). -/
def MONTH_MAP (s : String) : Option ℕ :=
  (MONTH_TABLE.find? (fun p => p.1 == s)).map (fun p => p.2)

/-- Anchored match of `([A-Z]{3})-(\d{4})`: three uppercase letters, a
hyphen, four digits spanning the whole string.  Returns the letter group
and the numeric value of the digit group. -/
def matchMonthYear (s : String) : Option (String × ℕ) :=
  match s.data with
  | [a, b, c, '-', d1, d2, d3, d4] =>
    if ('A' ≤ a ∧ a ≤ 'Z') ∧ ('A' ≤ b ∧ b ≤ 'Z') ∧ ('A' ≤ c ∧ c ≤ 'Z')
        ∧ d1.isDigit ∧ d2.isDigit ∧ d3.isDigit ∧ d4.isDigit then
      some (String.mk [a, b, c], natOfDigits [d1, d2, d3, d4])
    else none
  | _ => none

/-- Whether a digit-group component has the given length bounds and only
digits. -/
def digitGroup (l : List Char) (lo hi : ℕ) : Bool :=
  lo ≤ l.length && l.length ≤ hi && l.all Char.isDigit

/-- Anchored match of `(\d{1,2})\/(\d{1,2})\/(\d{4})` via splitting on the
slash (a digit is never a slash, so the split is exact). -/
def matchMDY (s : String) : Option (ℤ × ℤ × ℤ) :=
  match (s.data.splitOn '/') with
  | [a, b, c] =>
    if digitGroup a 1 2 && digitGroup b 1 2 && digitGroup c 4 4 then
      some ((natOfDigits a : ℤ), (natOfDigits b : ℤ), (natOfDigits c : ℤ))
    else none
  | _ => none

/-- Anchored match of `(\d{4})-(\d{2})-(\d{2})` via splitting on the
hyphen. -/
def matchISOParts (s : String) : Option (ℤ × ℤ × ℤ) :=
  match (s.data.splitOn '-') with
  | [a, b, c] =>
    if digitGroup a 4 4 && digitGroup b 2 2 && digitGroup c 2 2 then
      some ((natOfDigits a : ℤ), (natOfDigits b : ℤ), (natOfDigits c : ℤ))
    else none
  | _ => none

/-- Search match of `(\d{1,2}):(\d{2})` anchored at the head of the list:
the two-digit alternative is tried first and backtracks to one digit, as
the greedy regex quantifier does. -/
def timeAt (l : List Char) : Option (ℤ × ℤ) :=
  let oneDigit : Option (ℤ × ℤ) :=
    match l with
    | a :: ':' :: c :: d :: _ =>
      if a.isDigit && c.isDigit && d.isDigit then
        some ((digitVal a : ℤ), (10 * digitVal c + digitVal d : ℤ))
      else none
    | _ => none
  match l with
  | a :: b :: ':' :: c :: d :: _ =>
    if a.isDigit && b.isDigit && c.isDigit && d.isDigit then
      some ((10 * digitVal a + digitVal b : ℤ), (10 * digitVal c + digitVal d : ℤ))
    else oneDigit
  | _ => oneDigit

/-- First match of `timeStr.match(/(\d{1,2}):(\d{2})/)` scanning left to
right. -/
def findTime (l : List Char) : Option (ℤ × ℤ) :=
  match l with
  | [] => none
  | _ :: t =>
    match timeAt l with
    | some r => some r
    | none => findTime t

/-- `date.setHours(h, mi)` applied to a midnight base day: the timestamp
in minutes.  Out-of-range components roll over linearly, as in JS. -/
def withTime (day : ℤ) (timeStr : String) : ℤ :=
  match findTime timeStr.data with
  | some (h, mi) => day * 1440 + h * 60 + mi
  | none => day * 1440

/-- `parseNHTSADate(dateStr, timeStr)` returning a minute timestamp.
The final `new Date(dateStr)` generic fallback parse is the oracle `fb`
(its ECMAScript behavior is implementation-defined); note it receives the
original, untrimmed string, as in the source.  The `YYYY-MM-DD` branch is
`Date.parse` of an ISO date: UTC midnight when the calendar date is
valid, otherwise invalid and the chain continues; no time is applied in
that branch. -/
def parseNHTSADate (fb : String → Option ℤ) (dateStr timeStr : String) : Option ℤ :=
  if dateStr = "" then none
  else
    let trimmed := jsUpper (jsTrim dateStr)
    let monthYear : Option ℤ :=
      match matchMonthYear trimmed with
      | some (mon, yr) =>
        match MONTH_MAP mon with
        | some m => if yr ≠ 0 then some (withTime (jsMakeDay yr m 1) timeStr) else none
        | none => none
      | none => none
    match monthYear with
    | some t => some t
    | none =>
      match matchMDY trimmed with
      | some (mo, d, y) => some (withTime (jsMakeDay y (mo - 1) d) timeStr)
      | none =>
        let iso : Option ℤ :=
          match matchISOParts trimmed with
          | some (y, m, d) =>
            if 1 ≤ m ∧ m ≤ 12 ∧ 1 ≤ d ∧ d ≤ daysInMonth y m then
              some (daysFromCivil y m d * 1440)
            else none
          | none => none
        match iso with
        | some t => some t
        | none => fb dateStr

/-! ## CSV parsing -/

/-- The quote-aware scanner of one CSV line (the inner `parseCSVLine`):
a double quote toggles the in-quotes flag and is not emitted; a comma
outside quotes ends the current field; every field is trimmed as it is
pushed. -/
def parseCSVLineAux : List Char → List Char → Bool → List String
  | [], current, _ => [jsTrim (String.mk current)]
  | c :: rest, current, inQuotes =>
    if c = '"' then parseCSVLineAux rest current (!inQuotes)
    else if c = ',' ∧ ¬inQuotes then
      jsTrim (String.mk current) :: parseCSVLineAux rest [] inQuotes
    else parseCSVLineAux rest (current ++ [c]) inQuotes

/-- `parseCSVLine(line)`. -/
def parseCSVLine (line : String) : List String :=
  parseCSVLineAux line.data [] false

/-- `h.replace(/"/g, '')`: drop every double-quote character. -/
def removeQuotes (s : String) : String :=
  String.mk (s.data.filter (fun c => c ≠ '"'))

/-- A raw CSV row: column name to string value, later entries winning on
lookup as JS object assignment overwrites. -/
abbrev RawRecord := List (String × String)

/-- `record[key]` squashed to a string: the stored value when the key is
present (last assignment wins), `""` when absent — `undefined` and `""`
behave identically in every truthiness test the pipeline performs. -/
def fieldOf (record : RawRecord) (key : String) : String :=
  match record.reverse.find? (fun p => p.1 == key) with
  | some p => p.2
  | none => ""

/-- Build one record from the header list and a value list:
`record[header] = values[idx]?.replace(/"/g, '') || ''`. -/
def mkRecord (headers : List String) (values : List String) : RawRecord :=
  headers.enum.map (fun p => (p.2, removeQuotes ((values.get? p.1).getD "")))

/-- `parseCSV(csvText)`: split on newlines, first row is the header (each
header has quotes removed and is trimmed), empty lines are skipped. -/
def parseCSV (csvText : String) : List RawRecord :=
  let lines := csvText.splitOn "\n"
  if lines.length < 2 then []
  else
    match lines with
    | [] => []
    | l0 :: rest =>
      let headers := (parseCSVLine l0).map (fun h => jsTrim (removeQuotes h))
      (rest.filterMap (fun l =>
        if jsTrim l = "" then none
        else some (mkRecord headers (parseCSVLine (jsTrim l)))))

/-! ## Geocoding model -/

/-- A geocoding result: the `{lat, lng, displayName}` record built from a
Mapbox feature. -/
structure GeocodedLocation where
  lat : ℚ
  lng : ℚ
  displayName : String
deriving DecidableEq

/-- A state-center fallback entry of `STATE_COORDS`. -/
structure StateEntry where
  lat : ℚ
  lng : ℚ
  city : String
deriving DecidableEq

/-- The static `STATE_COORDS` table (all fifty states plus DC and Puerto
Rico), as an association list in source order. -/
def STATE_COORDS_TABLE : List (String × StateEntry) :=
  [("CA", ⟨37.7749, -122.4194, "San Francisco"⟩),
   ("TX", ⟨30.2672, -97.7431, "Austin"⟩),
   ("AZ", ⟨33.4484, -112.0740, "Phoenix"⟩),
   ("FL", ⟨28.5383, -81.3792, "Orlando"⟩),
   ("NY", ⟨40.7128, -74.0060, "New York"⟩),
   ("WA", ⟨47.6062, -122.3321, "Seattle"⟩),
   ("NV", ⟨36.1699, -115.1398, "Las Vegas"⟩),
   ("MI", ⟨42.3314, -83.0458, "Detroit"⟩),
   ("PA", ⟨40.4406, -79.9959, "Pittsburgh"⟩),
   ("CO", ⟨39.7392, -104.9903, "Denver"⟩),
   ("MA", ⟨42.3601, -71.0589, "Boston"⟩),
   ("IL", ⟨41.8781, -87.6298, "Chicago"⟩),
   ("GA", ⟨33.7490, -84.3880, "Atlanta"⟩),
   ("NC", ⟨35.2271, -80.8431, "Charlotte"⟩),
   ("OH", ⟨39.9612, -82.9988, "Columbus"⟩),
   ("NJ", ⟨40.0583, -74.4057, "Trenton"⟩),
   ("VA", ⟨37.4316, -78.6569, "Richmond"⟩),
   ("MD", ⟨39.0458, -76.6413, "Baltimore"⟩),
   ("OR", ⟨45.5152, -122.6784, "Portland"⟩),
   ("TN", ⟨36.1627, -86.7816, "Nashville"⟩),
   ("IN", ⟨39.7684, -86.1581, "Indianapolis"⟩),
   ("MN", ⟨44.9778, -93.2650, "Minneapolis"⟩),
   ("WI", ⟨43.0389, -87.9065, "Milwaukee"⟩),
   ("SC", ⟨32.7765, -79.9311, "Charleston"⟩),
   ("AL", ⟨33.5207, -86.8025, "Birmingham"⟩),
   ("LA", ⟨29.9511, -90.0715, "New Orleans"⟩),
   ("KY", ⟨38.2527, -85.7585, "Louisville"⟩),
   ("OK", ⟨35.4676, -97.5164, "Oklahoma City"⟩),
   ("CT", ⟨41.3083, -72.9279, "New Haven"⟩),
   ("UT", ⟨40.7608, -111.8910, "Salt Lake City"⟩),
   ("IA", ⟨41.5868, -93.6250, "Des Moines"⟩),
   ("NE", ⟨41.2565, -95.9345, "Omaha"⟩),
   ("KS", ⟨39.0997, -94.5786, "Kansas City"⟩),
   ("NM", ⟨35.0844, -106.6504, "Albuquerque"⟩),
   ("HI", ⟨21.3069, -157.8583, "Honolulu"⟩),
   ("ID", ⟨43.6150, -116.2023, "Boise"⟩),
   ("WV", ⟨38.3498, -81.6326, "Charleston"⟩),
   ("ME", ⟨43.6591, -70.2568, "Portland"⟩),
   ("NH", ⟨43.2081, -71.5376, "Concord"⟩),
   ("RI", ⟨41.8240, -71.4128, "Providence"⟩),
   ("MT", ⟨46.8797, -110.3626, "Billings"⟩),
   ("DE", ⟨39.1582, -75.5244, "Wilmington"⟩),
   ("SD", ⟨43.5460, -96.7313, "Sioux Falls"⟩),
   ("ND", ⟨46.8772, -96.7898, "Fargo"⟩),
   ("AK", ⟨61.2181, -149.9003, "Anchorage"⟩),
   ("VT", ⟨44.4759, -73.2121, "Burlington"⟩),
   ("WY", ⟨41.1400, -104.8202, "Cheyenne"⟩),
   ("DC", ⟨38.9072, -77.0369, "Washington"⟩),
   ("PR", ⟨18.4655, -66.1057, "San Juan"⟩),
   ("MO", ⟨38.6270, -90.1994, "St. Louis"⟩),
   ("AR", ⟨34.7465, -92.2896, "Little Rock"⟩),
   ("MS", ⟨32.2988, -90.1848, "Jackson"⟩)]

/-- `STATE_COORDS[state]`: object property lookup (keys are unique). -/
def STATE_COORDS (state : String) : Option StateEntry :=
  (STATE_COORDS_TABLE.find? (fun p => p.1 == state)).map (fun p => p.2)

/-- City-level cache key: lowercased `"city,state"`. -/
def cityCacheKey (city state : String) : String :=
  jsLower city ++ "," ++ jsLower state

/-- Street-level cache key: `"street:address,city,state"` lowercased. -/
def streetCacheKey (address city state : String) : String :=
  "street:" ++ jsLower address ++ "," ++ jsLower city ++ "," ++ jsLower state

/-- The per-run `streetGeocodeCache` as explicit state: key to cached
outcome (`none` inside the entry is the cached not-found marker). -/
abbrev StreetCache := List (String × Option GeocodedLocation)

/-- `streetGeocodeCache.has(key)` / `.get(key)` combined. -/
def streetCacheLookup (cache : StreetCache) (key : String) :
    Option (Option GeocodedLocation) :=
  (cache.find? (fun p => p.1 == key)).map (fun p => p.2)

/-- The external oracles of one ingestion run.  `cityCache` is the
city-level `geocodeCache` after pre-geocoding (`none` covers both an
absent key and a cached failure, the two falsy cases); `streetService` is
the top feature the geocoding service returns for a street query (by
address, city, state; `none` covers an HTTP failure, an empty feature
list, or a thrown error); `extract` is `extractLocationFromNarrative`;
the `rand` draws are the per-record `Math.random()` values used for
jitter; `now` is the per-record wall clock in minutes; `dateFallback` is
the generic `new Date(string)` parser. -/
structure Env where
  cityCache : String → Option GeocodedLocation
  streetService : String → String → String → Option GeocodedLocation
  extract : String → Option String
  randCityLat : ℕ → ℚ
  randCityLng : ℕ → ℚ
  randStateLat : ℕ → ℚ
  randStateLng : ℕ → ℚ
  now : ℕ → ℤ
  dateFallback : String → Option ℤ

/-- `geocodeStreetAddress(address, city, state)` with the cache threaded.
The distance sanity check compares the squared Euclidean distance in
degrees with `1/4`: the source computes
`Math.sqrt((lat-clat)^2 + (lng-clng)^2) > 0.5`, and for nonnegative `d`,
`sqrt d > 1/2` iff `d > 1/4`. -/
def geocodeStreetAddress (env : Env) (cache : StreetCache)
    (address city state : String) : Option GeocodedLocation × StreetCache :=
  let key := streetCacheKey address city state
  match streetCacheLookup cache key with
  | some v => (v, cache)
  | none =>
    match env.streetService address city state with
    | none => (none, (key, none) :: cache)
    | some f =>
      match env.cityCache (cityCacheKey city state) with
      | some cc =>
        if (f.lat - cc.lat) ^ 2 + (f.lng - cc.lng) ^ 2 > 1 / 4 then
          (none, (key, none) :: cache)
        else (some f, (key, some f) :: cache)
      | none => (some f, (key, some f) :: cache)

/-- `getCoordinates(city, state)` returning `(lat, lng)`: the cached
city center with `±0.02°` jitter, else the state center (defaulting to
the `'CA'` entry) with `±0.05°` jitter.  `index` selects the per-record
random draws. -/
def getCoordinates (env : Env) (index : ℕ) (city state : String) : ℚ × ℚ :=
  match env.cityCache (cityCacheKey city state) with
  | some cached =>
    (cached.lat + (env.randCityLat index - 1 / 2) * (4 / 100),
     cached.lng + (env.randCityLng index - 1 / 2) * (4 / 100))
  | none =>
    let sc := (STATE_COORDS state).getD ⟨37.7749, -122.4194, "San Francisco"⟩
    (sc.lat + (env.randStateLat index - 1 / 2) * (1 / 10),
     sc.lng + (env.randStateLng index - 1 / 2) * (1 / 10))

/-- `parseNHTSACoordinates(record)`: the real-GPS tier.  Rejects records
flagged unknown, empty or non-numeric values, and coordinates outside
latitude 18--72 or longitude -180 to -65. -/
def parseNHTSACoordinates (record : RawRecord) : Option (ℚ × ℚ) :=
  let latStr := jsTrim (fieldOf record "Latitude")
  let lngStr := jsTrim (fieldOf record "Longitude")
  let latUnknown := jsLower (fieldOf record "Latitude - Unknown") = "yes"
  let lngUnknown := jsLower (fieldOf record "Longitude - Unknown") = "yes"
  if latUnknown ∨ lngUnknown then none
  else if latStr = "" ∨ lngStr = "" then none
  else
    match jsParseFloat latStr, jsParseFloat lngStr with
    | some lat, some lng =>
      if lat < 18 ∨ lat > 72 ∨ lng < -180 ∨ lng > -65 then none
      else some (lat, lng)
    | _, _ => none

/-! ## Record normalization -/

/-- `mapCompany(manufacturer)`: case-insensitive substring match against
the fixed alias table, defaulting to `other`. -/
def mapCompany (manufacturer : String) : String :=
  let name := jsLower manufacturer
  if strIncludes name "waymo" || strIncludes name "alphabet" then "waymo"
  else if strIncludes name "cruise" || strIncludes name "gm" then "cruise"
  else if strIncludes name "zoox" || strIncludes name "amazon" then "zoox"
  else if strIncludes name "tesla" then "tesla"
  else "other"

/-- `mapIncidentType(record)`. -/
def mapIncidentType (record : RawRecord) : String :=
  let crashed := jsLower (fieldOf record "Crash")
  let severity := jsLower (fieldOf record "Highest Injury Severity Reported")
  if crashed = "yes" || strIncludes severity "fatal"
      || strIncludes severity "serious" then "collision"
  else if strIncludes severity "minor" || strIncludes severity "possible" then
    "near_miss"
  else "collision"

/-- The persisted point of the `location` column: the source serializes
it as the WKT text `SRID=4326;POINT(lng lat)`; the model keeps the
numeric pair (the serialization is determined by it). -/
structure GeoPoint where
  lng : ℚ
  lat : ℚ
deriving DecidableEq

/-- One row of the `incidents` upsert payload. -/
structure IncidentInsert where
  incident_type : String
  av_company : String
  description : String
  location : GeoPoint
  address : Option String
  city : String
  occurred_at : ℤ
  reported_at : ℤ
  status : String
  source : String
  external_id : String
  fatalities : ℤ
  injuries : ℤ
  raw_data : RawRecord

/-- A processed record with its coordinate-provenance tags. -/
structure ProcessedIncident where
  incident : IncidentInsert
  hasRealCoords : Bool
  hasStreetCoords : Bool

/-- `record['State'] || 'CA'`. -/
def stateOf (record : RawRecord) : String := jsOr (fieldOf record "State") "CA"

/-- `record['City'] || STATE_COORDS[state]?.city || 'Unknown'` (an absent
state entry contributes the empty string, which falls through). -/
def cityOf (record : RawRecord) : String :=
  jsOr (fieldOf record "City")
    (jsOr (((STATE_COORDS (stateOf record)).map StateEntry.city).getD "") "Unknown")

/-- First nonempty string of the chain, or `none`: models
`a || b || c || null` for strings. -/
def firstNonempty : List String → Option String
  | [] => none
  | s :: rest => if s = "" then firstNonempty rest else some s

/-- The narrative-extraction-and-street-geocoding block of the record
processors: skipped entirely when real GPS coordinates are present,
otherwise the extractor runs and, when it produces a candidate, the
street geocoder is consulted.  Returns `(extractedAddress, streetCoords,
updated cache)`. -/
def resolveStreet (env : Env) (cache : StreetCache)
    (realCoords : Option (ℚ × ℚ)) (narrative city state : String) :
    Option String × Option GeocodedLocation × StreetCache :=
  match realCoords with
  | some _ => (none, none, cache)
  | none =>
    match env.extract narrative with
    | none => (none, none, cache)
    | some addr =>
      let r := geocodeStreetAddress env cache addr city state
      (some addr, r.1, r.2)

/-- `coords = realCoords || (streetCoords ? {...} : null) ||
getCoordinates(city, state)`, returning `(lat, lng)`. -/
def chooseCoords (env : Env) (index : ℕ) (realCoords : Option (ℚ × ℚ))
    (streetCoords : Option GeocodedLocation) (city state : String) : ℚ × ℚ :=
  match realCoords with
  | some rc => rc
  | none =>
    match streetCoords with
    | some sc => (sc.lat, sc.lng)
    | none => getCoordinates env index city state

/-- `occurred_at`: the parsed incident date, else the ingestion time. -/
def occurredAtOf (env : Env) (index : ℕ) (record : RawRecord) : ℤ :=
  let incidentDate := jsOr (fieldOf record "Incident Date")
    (fieldOf record "Date of Incident")
  let incidentTime := fieldOf record "Incident Time (24:00)"
  match parseNHTSADate env.dateFallback incidentDate incidentTime with
  | some t => t
  | none => env.now index

/-- `processADSRecord(record, index)`; the returned pair carries the
updated street cache.  The source function always returns an incident
(its `| null` is never taken), so no option shows up here. -/
def processADSRecord (env : Env) (cache : StreetCache) (record : RawRecord)
    (index : ℕ) : ProcessedIncident × StreetCache :=
  let reportNumber := jsOr (fieldOf record "Report Number")
    ("ADS-" ++ toString index)
  let manufacturer := jsOr (fieldOf record "Make") (fieldOf record "Manufacturer")
  let state := stateOf record
  let city := cityOf record
  let realCoords := parseNHTSACoordinates record
  let rst := resolveStreet env cache realCoords (fieldOf record "Narrative")
    city state
  let extractedAddress := rst.1
  let streetCoords := rst.2.1
  let cache2 := rst.2.2
  let coords := chooseCoords env index realCoords streetCoords city state
  let occurredAt := occurredAtOf env index record
  let fatalities := jsParseIntOr0 (jsOr (fieldOf record "Deaths")
    (jsOr (fieldOf record "Fatalities") "0"))
  let injuries := jsParseIntOr0 (jsOr (fieldOf record "Injuries")
    (jsOr (fieldOf record "Persons Injured") "0"))
  let model := fieldOf record "Model"
  let year := fieldOf record "Model Year"
  let description := jsTrim ("NHTSA SGO Report: " ++ manufacturer ++ " "
    ++ model ++ " " ++ year ++ " ADS incident in " ++ city ++ ", " ++ state
    ++ ". "
    ++ (if fieldOf record "Crash" = "Yes" then "Crash reported." else "")
    ++ " " ++ fieldOf record "Highest Injury Severity Reported")
  (⟨{ incident_type := mapIncidentType record
      av_company := mapCompany manufacturer
      description := description
      location := ⟨coords.2, coords.1⟩
      address := firstNonempty [(extractedAddress.getD ""),
        fieldOf record "Address", fieldOf record "Street"]
      city := city
      occurred_at := occurredAt
      reported_at := env.now index
      status := "verified"
      source := "nhtsa"
      external_id := "nhtsa-ads-" ++ reportNumber
      fatalities := fatalities
      injuries := injuries
      raw_data := record },
    realCoords.isSome, streetCoords.isSome⟩, cache2)

/-- `processADASRecord(record, index)`: identical shape to the ADS
processor with the `ADAS` report-number default, external-id prefix, and
description wording. -/
def processADASRecord (env : Env) (cache : StreetCache) (record : RawRecord)
    (index : ℕ) : ProcessedIncident × StreetCache :=
  let reportNumber := jsOr (fieldOf record "Report Number")
    ("ADAS-" ++ toString index)
  let manufacturer := jsOr (fieldOf record "Make") (fieldOf record "Manufacturer")
  let state := stateOf record
  let city := cityOf record
  let company := mapCompany manufacturer
  let realCoords := parseNHTSACoordinates record
  let rst := resolveStreet env cache realCoords (fieldOf record "Narrative")
    city state
  let extractedAddress := rst.1
  let streetCoords := rst.2.1
  let cache2 := rst.2.2
  let coords := chooseCoords env index realCoords streetCoords city state
  let occurredAt := occurredAtOf env index record
  let fatalities := jsParseIntOr0 (jsOr (fieldOf record "Deaths")
    (jsOr (fieldOf record "Fatalities") "0"))
  let injuries := jsParseIntOr0 (jsOr (fieldOf record "Injuries")
    (jsOr (fieldOf record "Persons Injured") "0"))
  let model := fieldOf record "Model"
  let year := fieldOf record "Model Year"
  let description := jsTrim ("NHTSA SGO Report: " ++ manufacturer ++ " "
    ++ model ++ " " ++ year ++ " ADAS (Level 2) incident in " ++ city ++ ", "
    ++ state ++ ". "
    ++ (if fieldOf record "Crash" = "Yes" then "Crash reported." else "")
    ++ " " ++ fieldOf record "Highest Injury Severity Reported")
  (⟨{ incident_type := mapIncidentType record
      av_company := company
      description := description
      location := ⟨coords.2, coords.1⟩
      address := firstNonempty [(extractedAddress.getD ""),
        fieldOf record "Address", fieldOf record "Street"]
      city := city
      occurred_at := occurredAt
      reported_at := env.now index
      status := "verified"
      source := "nhtsa"
      external_id := "nhtsa-adas-" ++ reportNumber
      fatalities := fatalities
      injuries := injuries
      raw_data := record },
    realCoords.isSome, streetCoords.isSome⟩, cache2)

/-! ## Seeding run and the upsert writer -/

/-- Process a record list in order, threading the street cache and the
running index (the batched `Promise.all` loops of `seedNHTSAData` visit
records in order with `index = i + idx`). -/
def processAll
    (f : Env → StreetCache → RawRecord → ℕ → ProcessedIncident × StreetCache)
    (env : Env) (cache : StreetCache) (records : List RawRecord)
    (start : ℕ) : List ProcessedIncident × StreetCache :=
  match records with
  | [] => ([], cache)
  | r :: rs =>
    let pr := f env cache r start
    let rest := processAll f env pr.2 rs (start + 1)
    (pr.1 :: rest.1, rest.2)

/-- The incidents one `seedNHTSAData` run produces: every ADS record,
then the first 500 ADAS records (`adasRecords.slice(0, 500)`). -/
def seedIncidents (env : Env) (ads adas : List RawRecord) :
    List ProcessedIncident :=
  let adsP := processAll processADSRecord env [] ads 0
  let adasP := processAll processADASRecord env adsP.2 (adas.take 500) 0
  adsP.1 ++ adasP.1

/-- One row-level upsert with conflict target `external_id`
(`ignoreDuplicates: false`, so an existing row is updated in place,
keeping its position; a new id is appended). -/
def upsertOne (store : List IncidentInsert) (inc : IncidentInsert) :
    List IncidentInsert :=
  if store.any (fun r => r.external_id = inc.external_id) then
    store.map (fun r => if r.external_id = inc.external_id then inc else r)
  else store ++ [inc]

/-- The batch upsert writer: the 50-row batches of the source apply the
same per-row conflict resolution, so the whole run folds row by row. -/
def upsertBatch (store : List IncidentInsert) (batch : List IncidentInsert) :
    List IncidentInsert :=
  batch.foldl upsertOne store

/-- One ingestion run against a persisted store: normalize everything,
then upsert the batch. -/
def seedRun (env : Env) (ads adas : List RawRecord)
    (store : List IncidentInsert) : List IncidentInsert :=
  upsertBatch store ((seedIncidents env ads adas).map ProcessedIncident.incident)

/-- The external ids present in a store. -/
def storeIds (store : List IncidentInsert) : List String :=
  store.map IncidentInsert.external_id

/-- The store invariant: `external_id` is unique across rows. -/
def uniqueIds (store : List IncidentInsert) : Prop := (storeIds store).Nodup

/-- The external ids the ADS processor assigns to a record list whose
first record has index `start`: the source prefix plus the report number,
or the positional default. -/
def adsExtIds : List RawRecord → ℕ → List String
  | [], _ => []
  | r :: rs, i =>
    ("nhtsa-ads-" ++ jsOr (fieldOf r "Report Number") ("ADS-" ++ toString i))
      :: adsExtIds rs (i + 1)

/-- The external ids the ADAS processor assigns, analogously. -/
def adasExtIds : List RawRecord → ℕ → List String
  | [], _ => []
  | r :: rs, i =>
    ("nhtsa-adas-" ++ jsOr (fieldOf r "Report Number") ("ADAS-" ++ toString i))
      :: adasExtIds rs (i + 1)

/-- A geocoding result far enough inside the world coordinate box that
adding the city-level jitter of up to `±0.02°` cannot leave it. -/
def inJitterMargin (g : GeocodedLocation) : Prop :=
  -89.98 ≤ g.lat ∧ g.lat ≤ 89.98 ∧ -179.98 ≤ g.lng ∧ g.lng ≤ 179.98

/-- Every coordinate the geocoding service handed the run (city cache and
street results) is inside the jitter margin. -/
def envGeoBounded (env : Env) : Prop :=
  (∀ k g, env.cityCache k = some g → inJitterMargin g)
  ∧ (∀ a c s g, env.streetService a c s = some g → inJitterMargin g)

/-- Every street-cache entry (a previously returned service result) is
inside the jitter margin. -/
def cacheGeoBounded (cache : StreetCache) : Prop :=
  ∀ k g, (k, some g) ∈ cache → inJitterMargin g

/-- The four `Math.random()` draws of record `i` lie in `[0, 1]`. -/
def randBounded (env : Env) (i : ℕ) : Prop :=
  0 ≤ env.randCityLat i ∧ env.randCityLat i ≤ 1
  ∧ 0 ≤ env.randCityLng i ∧ env.randCityLng i ≤ 1
  ∧ 0 ≤ env.randStateLat i ∧ env.randStateLat i ≤ 1
  ∧ 0 ≤ env.randStateLng i ∧ env.randStateLng i ≤ 1

/-- A concrete quiescent environment for witnesses and counterexamples:
the geocoding service finds nothing, the extractor matches nothing, the
random draws are `1/2`, the clock reads zero, and the generic date
fallback fails. -/
def trivEnv : Env where
  cityCache := fun _ => none
  streetService := fun _ _ _ => none
  extract := fun _ => none
  randCityLat := fun _ => 1 / 2
  randCityLng := fun _ => 1 / 2
  randStateLat := fun _ => 1 / 2
  randStateLng := fun _ => 1 / 2
  now := fun _ => 0
  dateFallback := fun _ => none

/-- An environment with every geocoding-related oracle replaced: the
narrative extractor, the street geocoding service, the city cache, and
the four jitter draws.  Used to state that a computation never consults
any of them. -/
def withGeoOracles (env : Env) (ext : String → Option String)
    (svc : String → String → String → Option GeocodedLocation)
    (cc : String → Option GeocodedLocation) (r1 r2 r3 r4 : ℕ → ℚ) : Env :=
  { env with
    extract := ext
    streetService := svc
    cityCache := cc
    randCityLat := r1
    randCityLng := r2
    randStateLat := r3
    randStateLng := r4 }

/-! ## Helper lemmas -/

theorem jsParseInt_nonneg_of_no_minus (s : String) (h : '-' ∉ s.data)
    (n : ℤ) (hn : jsParseInt s = some n) : 0 ≤ n := by
  unfold jsParseInt at hn
  split at hn
  · rename_i rest heq
    exfalso
    apply h
    have hsub : dropLeadingWs s.data ⊆ s.data :=
      (List.dropWhile_sublist _).subset
    exact hsub (heq ▸ List.mem_cons_self _ _)
  · split at hn
    · exact absurd hn (by simp)
    · exact (Option.some.inj hn) ▸ Int.natCast_nonneg _
  · split at hn
    · exact absurd hn (by simp)
    · exact (Option.some.inj hn) ▸ Int.natCast_nonneg _

theorem jsParseIntOr0_eq_zero_of_none (s : String)
    (h : jsParseInt s = none) : jsParseIntOr0 s = 0 := by
  simp [jsParseIntOr0, h]

theorem jsParseIntOr0_eq_of_some (s : String) (n : ℤ)
    (h : jsParseInt s = some n) : jsParseIntOr0 s = n := by
  simp [jsParseIntOr0, h]

theorem jsParseIntOr0_nonneg_of_no_minus (s : String) (h : '-' ∉ s.data) :
    0 ≤ jsParseIntOr0 s := by
  cases hp : jsParseInt s with
  | none => simp [jsParseIntOr0_eq_zero_of_none s hp]
  | some n =>
    rw [jsParseIntOr0_eq_of_some s n hp]
    exact jsParseInt_nonneg_of_no_minus s h n hp

theorem monthMap_le_eleven (mon : String) (m : ℕ)
    (h : MONTH_MAP mon = some m) : m ≤ 11 := by
  unfold MONTH_MAP at h
  cases hf : MONTH_TABLE.find? (fun p => p.1 == mon) with
  | none => rw [hf] at h; cases h
  | some p =>
    rw [hf] at h
    have hp : p ∈ MONTH_TABLE := List.mem_of_find?_eq_some hf
    have hall : ∀ q ∈ MONTH_TABLE, q.2 ≤ 11 := by decide
    have := hall p hp
    simp at h
    omega

theorem int_fdiv_emod_small (m : ℕ) (hm : m ≤ 11) :
    Int.fdiv (m : ℤ) 12 = 0 ∧ Int.emod (m : ℤ) 12 = (m : ℤ) := by
  have h0 : 0 ≤ (m : ℤ) := Int.natCast_nonneg m
  have h1 : (m : ℤ) < 12 := by
    have := hm
    omega
  constructor
  · rw [Int.fdiv_eq_ediv _ (by norm_num)]
    exact Int.ediv_eq_zero_of_lt h0 h1
  · exact Int.emod_eq_of_lt h0 h1

theorem jsMakeDay_first_of_month (y m : ℕ) (hy : 100 ≤ y) (hm : m ≤ 11) :
    jsMakeDay (y : ℤ) (m : ℤ) 1 = daysFromCivil (y : ℤ) ((m : ℤ) + 1) 1 := by
  obtain ⟨hfd, hmod⟩ := int_fdiv_emod_small m hm
  unfold jsMakeDay
  rw [if_neg (by omega), hfd, hmod]
  ring_nf

/-! ## Claim C5 -/

/-- Claim C5: the spec states that the date parser applied to
"13/40/2025" returns null (unparseable).  The code instead matches the
`MM/DD/YYYY` pattern and hands month 13 and day 40 to the `Date`
constructor, which rolls them over: the result is the (non-null) instant
of February 9, 2026 at midnight, for every generic-fallback oracle.  The
spec describes the evident intent (a calendar-invalid date is
unparseable); the rollover is a slip in the code. -/
theorem claim5_invalid_date_rolls_over (fb : String → Option ℤ) :
    parseNHTSADate fb "13/40/2025" "" = some (daysFromCivil 2026 2 9 * 1440) := by
  rfl

/-- Claim C5 witness: the rollover evaluated at a concrete fallback. -/
theorem claim5_invalid_date_rolls_over_witness :
    parseNHTSADate (fun _ => none) "13/40/2025" "" =
      some (daysFromCivil 2026 2 9 * 1440) :=
  claim5_invalid_date_rolls_over (fun _ => none)

/-! ## Claim C6 -/

/-- Claim C6 counterexample: "OCT-0099" is a recognized month
abbreviation with a four-digit year, but the result is not the first day
of October of year 99 — the `Date` constructor remaps integer years 0--99
to 1900--1999, so the code returns October 1, 1999. -/
theorem claim6_counterexample :
    parseNHTSADate (fun _ => none) "OCT-0099" "" ≠
      some (daysFromCivil 99 10 1 * 1440) ∧
    parseNHTSADate (fun _ => none) "OCT-0099" "" =
      some (daysFromCivil 1999 10 1 * 1440) := by
  constructor
  · decide
  · rfl

/-- Claim C6 (amended): "OCT-2025" with no time token yields the first
instant of October 2025; and for every string the `MON-YYYY` matcher
recognizes with month abbreviation `mon` and four-digit year `y`, when
`mon` is in the month table and `100 ≤ y`, the parse yields the first
day of that month, with an `HH:MM` time token applied as hours and
minutes on top — for every generic-fallback oracle.  (Years 0000--0099
are excluded: 0000 fails the truthiness check and 0001--0099 are remapped
to 1901--1999 by the `Date` constructor, per the counterexample.) -/
theorem claim6_month_year_first_day :
    (∀ fb : String → Option ℤ,
      parseNHTSADate fb "OCT-2025" "" = some (daysFromCivil 2025 10 1 * 1440))
    ∧ (∀ (fb : String → Option ℤ) (s timeStr : String) (mon : String) (m y : ℕ),
      matchMonthYear (jsUpper (jsTrim s)) = some (mon, y) →
      MONTH_MAP mon = some m →
      100 ≤ y →
      ((findTime timeStr.data = none →
        parseNHTSADate fb s timeStr = some (daysFromCivil y (m + 1) 1 * 1440)) ∧
       (∀ hr mi : ℤ, findTime timeStr.data = some (hr, mi) →
        parseNHTSADate fb s timeStr =
          some (daysFromCivil y (m + 1) 1 * 1440 + hr * 60 + mi)))) := by
  constructor
  · intro fb
    rfl
  · intro fb s timeStr mon m y hmatch hmap hy
    have hs : ¬(s = "") := by
      intro he
      subst he
      simp [show matchMonthYear (jsUpper (jsTrim "")) = none from rfl] at hmatch
    have hm11 : m ≤ 11 := monthMap_le_eleven mon m hmap
    have hday : jsMakeDay (y : ℤ) (m : ℤ) 1 = daysFromCivil (y : ℤ) ((m : ℤ) + 1) 1 :=
      jsMakeDay_first_of_month y m hy hm11
    simp only [parseNHTSADate, hmatch, hmap, if_neg hs]
    rw [if_pos (show y ≠ 0 by omega)]
    constructor
    · intro hfind
      simp only [withTime, hfind, hday]
    · intro hr mi hfind
      simp only [withTime, hfind, hday]

/-- Claim C6 witness: the general statement applied to "OCT-2025" with
time token "14:30". -/
theorem claim6_month_year_first_day_witness :
    parseNHTSADate (fun _ => none) "OCT-2025" "14:30" =
      some (daysFromCivil 2025 10 1 * 1440 + 14 * 60 + 30) :=
  (claim6_month_year_first_day.2 (fun _ => none) "OCT-2025" "14:30" "OCT" 9 2025
    (by decide) (by decide) (by norm_num)).2 14 30 (by decide)

/-! ## Claim C8 -/

theorem parseCSVLineAux_quote (rest cur : List Char) (q : Bool) :
    parseCSVLineAux ('"' :: rest) cur q = parseCSVLineAux rest cur (!q) := by
  simp [parseCSVLineAux]

theorem parseCSVLineAux_comma (rest cur : List Char) :
    parseCSVLineAux (',' :: rest) cur false =
      jsTrim (String.mk cur) :: parseCSVLineAux rest [] false := by
  simp [parseCSVLineAux]

theorem parseCSVLineAux_nil (cur : List Char) :
    parseCSVLineAux [] cur false = [jsTrim (String.mk cur)] := rfl

theorem parseCSVLineAux_quoted_run (cs t cur : List Char)
    (h : ∀ c ∈ cs, c ≠ '"') :
    parseCSVLineAux (cs ++ t) cur true = parseCSVLineAux t (cur ++ cs) true := by
  induction cs generalizing cur with
  | nil => simp
  | cons c cs ih =>
    have hc : c ≠ '"' := h c (List.mem_cons_self _ _)
    simp only [List.cons_append, parseCSVLineAux, if_neg hc, List.append_eq]
    rw [if_neg (by simp)]
    rw [ih (cur ++ [c]) (fun x hx => h x (List.mem_cons_of_mem _ hx))]
    simp

/-- Claim C8: the quote-aware scanner treats a comma inside double quotes
as literal field content and a quote as a flag toggle that is never
emitted; the concrete row from the spec parses to exactly two fields; in
general a row of two quoted fields free of embedded quotes parses to
those two (trimmed) fields, whatever commas they contain; and a row with
fewer values than headers maps the missing columns to the empty string. -/
theorem claim8_csv_quoting :
    parseCSVLine "\"Smith, John\",\"collision\"" = ["Smith, John", "collision"]
    ∧ (∀ f1 f2 : String, '"' ∉ f1.data → '"' ∉ f2.data →
        parseCSVLine ("\"" ++ f1 ++ "\",\"" ++ f2 ++ "\"") = [jsTrim f1, jsTrim f2])
    ∧ (∀ (headers values : List String) (i : ℕ) (h : String),
        headers[i]? = some h → values.length ≤ i →
        (mkRecord headers values)[i]? = some (h, "")) := by
  refine ⟨by decide, ?_, ?_⟩
  · intro f1 f2 h1 h2
    unfold parseCSVLine
    have hdata : ("\"" ++ f1 ++ "\",\"" ++ f2 ++ "\"").data
        = '"' :: (f1.data ++ ('"' :: ',' :: '"' :: (f2.data ++ ['"']))) := by
      simp [String.data_append]
    rw [hdata, parseCSVLineAux_quote, Bool.not_false,
      parseCSVLineAux_quoted_run f1.data _ []
        (fun c hc => by rintro rfl; exact h1 hc),
      List.nil_append, parseCSVLineAux_quote, Bool.not_true,
      parseCSVLineAux_comma, parseCSVLineAux_quote, Bool.not_false,
      parseCSVLineAux_quoted_run f2.data _ []
        (fun c hc => by rintro rfl; exact h2 hc),
      List.nil_append, parseCSVLineAux_quote, Bool.not_true,
      parseCSVLineAux_nil]
  · intro headers values i h hh hv
    unfold mkRecord
    rw [List.getElem?_map, List.getElem?_enum, hh]
    have hg : values[i]? = none := List.getElem?_eq_none hv
    simp [hg, removeQuotes]

/-- Claim C8 witness: the general two-field statement applied to the
concrete spec row, and a concrete short row against two headers. -/
theorem claim8_csv_quoting_witness :
    parseCSVLine ("\"" ++ "Smith, John" ++ "\",\"" ++ "collision" ++ "\"")
      = [jsTrim "Smith, John", jsTrim "collision"]
    ∧ (mkRecord ["A", "B"] ["1"])[1]? = some ("B", "") :=
  ⟨claim8_csv_quoting.2.1 "Smith, John" "collision" (by decide) (by decide),
   claim8_csv_quoting.2.2 ["A", "B"] ["1"] 1 "B" (by decide) (by decide)⟩

/-! ## Claim C7 -/

/-- Claim C7 counterexample: the source value `Deaths = "-5"` is numeric,
`parseInt` passes the negative through, and `-5 || 0` keeps it, so the
produced incident has a negative fatalities field. -/
theorem claim7_counterexample :
    (processADSRecord trivEnv [] [("Deaths", "-5")] 0).1.incident.fatalities = -5
    ∧ ¬(0 ≤ (processADSRecord trivEnv [] [("Deaths", "-5")] 0).1.incident.fatalities) := by
  constructor
  · rfl
  · decide

/-- Claim C7 (amended): fatalities and injuries are integers and every
input is processed without an error; an absent or non-numeric source
value yields zero; and the values are non-negative whenever the source
strings contain no minus sign (a source value that parses negative, as in
the counterexample, is passed through unchanged).  Stated for both the
ADS and the ADAS processor. -/
theorem claim7_defensive_counts (env : Env) (cache : StreetCache)
    (rec : RawRecord) (i : ℕ) :
    (jsParseInt (jsOr (fieldOf rec "Deaths") (jsOr (fieldOf rec "Fatalities") "0")) = none →
      (processADSRecord env cache rec i).1.incident.fatalities = 0
      ∧ (processADASRecord env cache rec i).1.incident.fatalities = 0)
    ∧ ('-' ∉ (jsOr (fieldOf rec "Deaths") (jsOr (fieldOf rec "Fatalities") "0")).data →
      0 ≤ (processADSRecord env cache rec i).1.incident.fatalities
      ∧ 0 ≤ (processADASRecord env cache rec i).1.incident.fatalities)
    ∧ (fieldOf rec "Deaths" = "" → fieldOf rec "Fatalities" = "" →
      (processADSRecord env cache rec i).1.incident.fatalities = 0
      ∧ (processADASRecord env cache rec i).1.incident.fatalities = 0)
    ∧ (jsParseInt (jsOr (fieldOf rec "Injuries") (jsOr (fieldOf rec "Persons Injured") "0")) = none →
      (processADSRecord env cache rec i).1.incident.injuries = 0
      ∧ (processADASRecord env cache rec i).1.incident.injuries = 0)
    ∧ ('-' ∉ (jsOr (fieldOf rec "Injuries") (jsOr (fieldOf rec "Persons Injured") "0")).data →
      0 ≤ (processADSRecord env cache rec i).1.incident.injuries
      ∧ 0 ≤ (processADASRecord env cache rec i).1.incident.injuries)
    ∧ (fieldOf rec "Injuries" = "" → fieldOf rec "Persons Injured" = "" →
      (processADSRecord env cache rec i).1.incident.injuries = 0
      ∧ (processADASRecord env cache rec i).1.incident.injuries = 0) := by
  refine ⟨fun h => ⟨?_, ?_⟩, fun h => ⟨?_, ?_⟩, fun h1 h2 => ⟨?_, ?_⟩,
    fun h => ⟨?_, ?_⟩, fun h => ⟨?_, ?_⟩, fun h1 h2 => ⟨?_, ?_⟩⟩
  · exact jsParseIntOr0_eq_zero_of_none _ h
  · exact jsParseIntOr0_eq_zero_of_none _ h
  · exact jsParseIntOr0_nonneg_of_no_minus _ h
  · exact jsParseIntOr0_nonneg_of_no_minus _ h
  · show jsParseIntOr0 (jsOr (fieldOf rec "Deaths")
      (jsOr (fieldOf rec "Fatalities") "0")) = 0
    rw [h1, h2]
    rfl
  · show jsParseIntOr0 (jsOr (fieldOf rec "Deaths")
      (jsOr (fieldOf rec "Fatalities") "0")) = 0
    rw [h1, h2]
    rfl
  · exact jsParseIntOr0_eq_zero_of_none _ h
  · exact jsParseIntOr0_eq_zero_of_none _ h
  · exact jsParseIntOr0_nonneg_of_no_minus _ h
  · exact jsParseIntOr0_nonneg_of_no_minus _ h
  · show jsParseIntOr0 (jsOr (fieldOf rec "Injuries")
      (jsOr (fieldOf rec "Persons Injured") "0")) = 0
    rw [h1, h2]
    rfl
  · show jsParseIntOr0 (jsOr (fieldOf rec "Injuries")
      (jsOr (fieldOf rec "Persons Injured") "0")) = 0
    rw [h1, h2]
    rfl

/-- Claim C7 witness: a record with a non-numeric `Deaths` value and no
injuries field yields zero for both counts. -/
theorem claim7_defensive_counts_witness :
    (processADSRecord trivEnv [] [("Deaths", "n/a")] 0).1.incident.fatalities = 0
    ∧ (processADSRecord trivEnv [] [("Deaths", "n/a")] 0).1.incident.injuries = 0 :=
  ⟨((claim7_defensive_counts trivEnv [] [("Deaths", "n/a")] 0).1 (by decide)).1,
   (((claim7_defensive_counts trivEnv [] [("Deaths", "n/a")] 0).2.2.2.2.2
      (by decide) (by decide))).1⟩

/-! ## Claim C3 -/

theorem parseNHTSACoordinates_eq_some (rec : RawRecord) (lat lng : ℚ)
    (hlu : jsLower (fieldOf rec "Latitude - Unknown") ≠ "yes")
    (hgu : jsLower (fieldOf rec "Longitude - Unknown") ≠ "yes")
    (hlat : jsParseFloat (jsTrim (fieldOf rec "Latitude")) = some lat)
    (hlng : jsParseFloat (jsTrim (fieldOf rec "Longitude")) = some lng)
    (h1 : 18 ≤ lat) (h2 : lat ≤ 72) (h3 : -180 ≤ lng) (h4 : lng ≤ -65) :
    parseNHTSACoordinates rec = some (lat, lng) := by
  have hne1 : ¬(jsTrim (fieldOf rec "Latitude") = "") := by
    intro he
    rw [he] at hlat
    simp [show jsParseFloat "" = none from rfl] at hlat
  have hne2 : ¬(jsTrim (fieldOf rec "Longitude") = "") := by
    intro he
    rw [he] at hlng
    simp [show jsParseFloat "" = none from rfl] at hlng
  simp only [parseNHTSACoordinates]
  rw [if_neg (by push_neg; exact ⟨hlu, hgu⟩)]
  rw [if_neg (by push_neg; exact ⟨hne1, hne2⟩)]
  rw [hlat, hlng]
  show (if lat < 18 ∨ lat > 72 ∨ lng < -180 ∨ lng > -65 then (none : Option (ℚ × ℚ))
    else some (lat, lng)) = some (lat, lng)
  rw [if_neg (by push_neg; exact ⟨by linarith, by linarith, by linarith, by linarith⟩)]

/-- Claim C3: for a record whose explicit latitude/longitude fields are
present, numeric, not flagged unknown, with latitude in `[18, 72]` and
longitude in `[-180, -65]`, processing returns exactly that pair as the
location (no jitter), tags it as a real coordinate, performs no
street-geocoding call (the street cache comes back untouched), and the
whole result is invariant under replacing the narrative extractor, the
geocoding service, the city cache, and the random draws.  Stated for
both the ADS and the ADAS processor. -/
theorem claim3_real_gps_precedence (env : Env) (cache : StreetCache)
    (rec : RawRecord) (i : ℕ) (lat lng : ℚ)
    (hlu : jsLower (fieldOf rec "Latitude - Unknown") ≠ "yes")
    (hgu : jsLower (fieldOf rec "Longitude - Unknown") ≠ "yes")
    (hlat : jsParseFloat (jsTrim (fieldOf rec "Latitude")) = some lat)
    (hlng : jsParseFloat (jsTrim (fieldOf rec "Longitude")) = some lng)
    (h1 : 18 ≤ lat) (h2 : lat ≤ 72) (h3 : -180 ≤ lng) (h4 : lng ≤ -65) :
    ((processADSRecord env cache rec i).1.incident.location = ⟨lng, lat⟩
      ∧ (processADSRecord env cache rec i).1.hasRealCoords = true
      ∧ (processADSRecord env cache rec i).1.hasStreetCoords = false
      ∧ (processADSRecord env cache rec i).2 = cache
      ∧ ∀ ext svc cc r1 r2 r3 r4,
          processADSRecord (withGeoOracles env ext svc cc r1 r2 r3 r4) cache rec i
            = processADSRecord env cache rec i)
    ∧ ((processADASRecord env cache rec i).1.incident.location = ⟨lng, lat⟩
      ∧ (processADASRecord env cache rec i).1.hasRealCoords = true
      ∧ (processADASRecord env cache rec i).1.hasStreetCoords = false
      ∧ (processADASRecord env cache rec i).2 = cache
      ∧ ∀ ext svc cc r1 r2 r3 r4,
          processADASRecord (withGeoOracles env ext svc cc r1 r2 r3 r4) cache rec i
            = processADASRecord env cache rec i) := by
  have hreal : parseNHTSACoordinates rec = some (lat, lng) :=
    parseNHTSACoordinates_eq_some rec lat lng hlu hgu hlat hlng h1 h2 h3 h4
  constructor
  · refine ⟨?_, ?_, ?_, ?_, ?_⟩ <;>
    · intros
      simp [processADSRecord, resolveStreet, chooseCoords, hreal, occurredAtOf,
        withGeoOracles]
  · refine ⟨?_, ?_, ?_, ?_, ?_⟩ <;>
    · intros
      simp [processADASRecord, resolveStreet, chooseCoords, hreal, occurredAtOf,
        withGeoOracles]

/-- Claim C3 witness: a record carrying GPS `37.5, -122.25` resolves to
exactly that point and leaves the street cache empty. -/
theorem claim3_real_gps_precedence_witness :
    (processADSRecord trivEnv []
        [("Latitude", "37.5"), ("Longitude", "-122.25")] 0).1.incident.location
      = ⟨-489 / 4, 75 / 2⟩
    ∧ (processADSRecord trivEnv []
        [("Latitude", "37.5"), ("Longitude", "-122.25")] 0).2 = [] := by
  have hlat : jsParseFloat (jsTrim (fieldOf
      [("Latitude", "37.5"), ("Longitude", "-122.25")] "Latitude"))
      = some (75 / 2) := by
    have e0 : jsTrim (fieldOf
        [("Latitude", "37.5"), ("Longitude", "-122.25")] "Latitude")
        = "37.5" := by decide
    have e1 : splitSign (dropLeadingWs "37.5".data)
        = (1, ['3', '7', '.', '5']) := by decide
    have e2 : takeDigits ['3', '7', '.', '5'] = (['3', '7'], ['.', '5']) := by
      decide
    have e3 : splitFrac ['.', '5'] = (['5'], ([] : List Char)) := by decide
    have e4 : natOfDigits ['3', '7'] = 37 := by decide
    have e5 : natOfDigits ['5'] = 5 := by decide
    rw [e0]
    simp only [jsParseFloat, e1, e2, e3, e4, e5]
    rw [if_neg (by simp)]
    norm_num [expOf]
  have hlng : jsParseFloat (jsTrim (fieldOf
      [("Latitude", "37.5"), ("Longitude", "-122.25")] "Longitude"))
      = some (-489 / 4) := by
    have e0 : jsTrim (fieldOf
        [("Latitude", "37.5"), ("Longitude", "-122.25")] "Longitude")
        = "-122.25" := by decide
    have e1 : splitSign (dropLeadingWs "-122.25".data)
        = (-1, ['1', '2', '2', '.', '2', '5']) := by decide
    have e2 : takeDigits ['1', '2', '2', '.', '2', '5']
        = (['1', '2', '2'], ['.', '2', '5']) := by decide
    have e3 : splitFrac ['.', '2', '5'] = (['2', '5'], ([] : List Char)) := by
      decide
    have e4 : natOfDigits ['1', '2', '2'] = 122 := by decide
    have e5 : natOfDigits ['2', '5'] = 25 := by decide
    rw [e0]
    simp only [jsParseFloat, e1, e2, e3, e4, e5]
    rw [if_neg (by simp)]
    norm_num [expOf]
  have h := claim3_real_gps_precedence trivEnv []
    [("Latitude", "37.5"), ("Longitude", "-122.25")] 0 (75 / 2) (-489 / 4)
    (by decide) (by decide) hlat hlng
    (by norm_num) (by norm_num) (by norm_num) (by norm_num)
  exact ⟨h.1.1, h.1.2.2.2.1⟩

/-! ## Claim C4 -/

/-- Claim C4: when the city/state key already has a resolved city-center
coordinate in the city cache and the geocoding service's top street
result lies further than 0.5 degrees (Euclidean, in degrees: the source
compares `sqrt(dlat^2 + dlng^2) > 0.5`, here stated on squares) from that
center, the street lookup is rejected: it returns null and caches the key
as not found; and a record resolving through that street query falls
through to city-level resolution — its location is the cached city center
plus the city-level jitter, tagged as not street-geocoded. -/
theorem claim4_distance_sanity_rejection (env : Env) (cache : StreetCache)
    (addr : String) (f cc : GeocodedLocation) (i : ℕ) (rec : RawRecord)
    (hmiss : streetCacheLookup cache
      (streetCacheKey addr (cityOf rec) (stateOf rec)) = none)
    (hsvc : env.streetService addr (cityOf rec) (stateOf rec) = some f)
    (hcc : env.cityCache (cityCacheKey (cityOf rec) (stateOf rec)) = some cc)
    (hfar : (f.lat - cc.lat) ^ 2 + (f.lng - cc.lng) ^ 2 > 1 / 4)
    (hreal : parseNHTSACoordinates rec = none)
    (hext : env.extract (fieldOf rec "Narrative") = some addr) :
    geocodeStreetAddress env cache addr (cityOf rec) (stateOf rec)
      = (none, (streetCacheKey addr (cityOf rec) (stateOf rec), none) :: cache)
    ∧ (processADSRecord env cache rec i).1.incident.location
      = ⟨cc.lng + (env.randCityLng i - 1 / 2) * (4 / 100),
         cc.lat + (env.randCityLat i - 1 / 2) * (4 / 100)⟩
    ∧ (processADSRecord env cache rec i).1.hasStreetCoords = false
    ∧ (processADSRecord env cache rec i).2
      = (streetCacheKey addr (cityOf rec) (stateOf rec), none) :: cache := by
  have h1 : geocodeStreetAddress env cache addr (cityOf rec) (stateOf rec)
      = (none, (streetCacheKey addr (cityOf rec) (stateOf rec), none) :: cache) := by
    simp only [geocodeStreetAddress, hmiss, hsvc, hcc]
    rw [if_pos hfar]
  refine ⟨h1, ?_, ?_, ?_⟩ <;>
    simp [processADSRecord, resolveStreet, chooseCoords, hreal, hext, h1,
      getCoordinates, hcc]

/-- Claim C4 witness: a street result a full degree away from the cached
San Jose center is rejected and the incident lands on the city center
(the jitter draws are exactly 1/2, so the offset vanishes). -/
theorem claim4_distance_sanity_rejection_witness :
    (processADSRecord
        { trivEnv with
          cityCache := fun k =>
            if k = "san jose,ca" then some ⟨37, -121, "San Jose"⟩ else none
          streetService := fun _ _ _ => some ⟨38, -120, "wrong city"⟩
          extract := fun _ => some "Main Street" }
        [] [("City", "San Jose"), ("State", "CA")] 0).1.incident.location.lat = 37
    ∧ (processADSRecord
        { trivEnv with
          cityCache := fun k =>
            if k = "san jose,ca" then some ⟨37, -121, "San Jose"⟩ else none
          streetService := fun _ _ _ => some ⟨38, -120, "wrong city"⟩
          extract := fun _ => some "Main Street" }
        [] [("City", "San Jose"), ("State", "CA")] 0).1.hasStreetCoords = false := by
  have h := claim4_distance_sanity_rejection
    { trivEnv with
      cityCache := fun k =>
        if k = "san jose,ca" then some ⟨37, -121, "San Jose"⟩ else none
      streetService := fun _ _ _ => some ⟨38, -120, "wrong city"⟩
      extract := fun _ => some "Main Street" }
    [] "Main Street" ⟨38, -120, "wrong city"⟩ ⟨37, -121, "San Jose"⟩ 0
    [("City", "San Jose"), ("State", "CA")]
    rfl rfl (by decide) (by norm_num) (by decide) rfl
  refine ⟨?_, h.2.2.1⟩
  rw [h.2.1]
  norm_num [trivEnv]

/-! ## Claim C2 -/

theorem stateEntry_bounds : ∀ p ∈ STATE_COORDS_TABLE,
    18 ≤ p.2.lat ∧ p.2.lat ≤ 62 ∧ -158 ≤ p.2.lng ∧ p.2.lng ≤ -66 := by
  intro p hp
  fin_cases hp <;> norm_num

theorem STATE_COORDS_bounds (s : String) (e : StateEntry)
    (h : STATE_COORDS s = some e) :
    18 ≤ e.lat ∧ e.lat ≤ 62 ∧ -158 ≤ e.lng ∧ e.lng ≤ -66 := by
  unfold STATE_COORDS at h
  cases hf : STATE_COORDS_TABLE.find? (fun p => p.1 == s) with
  | none => rw [hf] at h; cases h
  | some p =>
    rw [hf] at h
    simp at h
    have hb := stateEntry_bounds p (List.mem_of_find?_eq_some hf)
    rw [h] at hb
    exact hb

theorem getCoordinates_bounds (env : Env) (i : ℕ) (city state : String)
    (hcc : ∀ k g, env.cityCache k = some g → inJitterMargin g)
    (hr : randBounded env i) :
    -90 ≤ (getCoordinates env i city state).1
    ∧ (getCoordinates env i city state).1 ≤ 90
    ∧ -180 ≤ (getCoordinates env i city state).2
    ∧ (getCoordinates env i city state).2 ≤ 180 := by
  obtain ⟨r1a, r1b, r2a, r2b, r3a, r3b, r4a, r4b⟩ := hr
  unfold getCoordinates
  cases hc : env.cityCache (cityCacheKey city state) with
  | some g =>
    obtain ⟨b1, b2, b3, b4⟩ := hcc _ g hc
    norm_num [inJitterMargin] at b1 b2 b3 b4 ⊢
    refine ⟨by linarith, by linarith, by linarith, by linarith⟩
  | none =>
    cases hs : STATE_COORDS state with
    | some e =>
      obtain ⟨b1, b2, b3, b4⟩ := STATE_COORDS_bounds state e hs
      norm_num
      refine ⟨by linarith, by linarith, by linarith, by linarith⟩
    | none =>
      norm_num
      refine ⟨by linarith, by linarith, by linarith, by linarith⟩

theorem streetCacheLookup_mem (cache : StreetCache) (key : String)
    (v : Option GeocodedLocation) (h : streetCacheLookup cache key = some v) :
    ∃ k0, (k0, v) ∈ cache := by
  unfold streetCacheLookup at h
  cases hf : cache.find? (fun p => p.1 == key) with
  | none => rw [hf] at h; cases h
  | some p =>
    rw [hf] at h
    simp at h
    exact ⟨p.1, by rw [← h]; exact List.mem_of_find?_eq_some hf⟩

theorem geocodeStreetAddress_result_bounded (env : Env) (cache : StreetCache)
    (a c s : String) (g : GeocodedLocation)
    (henv : ∀ a c s g, env.streetService a c s = some g → inJitterMargin g)
    (hcache : cacheGeoBounded cache)
    (h : (geocodeStreetAddress env cache a c s).1 = some g) :
    inJitterMargin g := by
  simp only [geocodeStreetAddress] at h
  cases hm : streetCacheLookup cache (streetCacheKey a c s) with
  | some v =>
    simp [hm] at h
    obtain ⟨k0, hk0⟩ := streetCacheLookup_mem cache _ v hm
    rw [h] at hk0
    exact hcache k0 g hk0
  | none =>
    simp only [hm] at h
    cases hsvc : env.streetService a c s with
    | none => simp [hsvc] at h
    | some f =>
      have hf := henv a c s f hsvc
      simp only [hsvc] at h
      cases hcc : env.cityCache (cityCacheKey c s) with
      | some cc =>
        simp only [hcc] at h
        by_cases hd : (f.lat - cc.lat) ^ 2 + (f.lng - cc.lng) ^ 2 > 1 / 4
        · rw [if_pos hd] at h
          simp at h
        · rw [if_neg hd] at h
          simp at h
          obtain rfl := h
          exact hf
      | none =>
        simp [hcc] at h
        obtain rfl := h
        exact hf

theorem parseNHTSACoordinates_bounds (rec : RawRecord) (la ln : ℚ)
    (h : parseNHTSACoordinates rec = some (la, ln)) :
    18 ≤ la ∧ la ≤ 72 ∧ -180 ≤ ln ∧ ln ≤ -65 := by
  simp only [parseNHTSACoordinates] at h
  split at h
  · cases h
  split at h
  · cases h
  split at h
  · split at h
    · cases h
    · rename_i hcond
      push_neg at hcond
      obtain ⟨c1, c2, c3, c4⟩ := hcond
      have h2 := Option.some.inj h
      rw [Prod.mk.injEq] at h2
      obtain ⟨rfl, rfl⟩ := h2
      exact ⟨c1, c2, c3, c4⟩
  · cases h

theorem resolveStreet_coords_bounded (env : Env) (cache : StreetCache)
    (rc : Option (ℚ × ℚ)) (narr city state : String) (g : GeocodedLocation)
    (henv : ∀ a c s g, env.streetService a c s = some g → inJitterMargin g)
    (hcache : cacheGeoBounded cache)
    (h : (resolveStreet env cache rc narr city state).2.1 = some g) :
    inJitterMargin g := by
  cases rc with
  | some rcv => simp [resolveStreet] at h
  | none =>
    cases hext : env.extract narr with
    | none => simp [resolveStreet, hext] at h
    | some addr =>
      simp only [resolveStreet, hext] at h
      exact geocodeStreetAddress_result_bounded env cache addr city state g
        henv hcache h

theorem chooseCoords_bounds (env : Env) (i : ℕ) (rc : Option (ℚ × ℚ))
    (sc : Option GeocodedLocation) (city state : String)
    (hrc : ∀ la ln, rc = some (la, ln) →
      18 ≤ la ∧ la ≤ 72 ∧ -180 ≤ ln ∧ ln ≤ -65)
    (hsc : ∀ g, sc = some g → inJitterMargin g)
    (hcc : ∀ k g, env.cityCache k = some g → inJitterMargin g)
    (hr : randBounded env i) :
    -90 ≤ (chooseCoords env i rc sc city state).1
    ∧ (chooseCoords env i rc sc city state).1 ≤ 90
    ∧ -180 ≤ (chooseCoords env i rc sc city state).2
    ∧ (chooseCoords env i rc sc city state).2 ≤ 180 := by
  cases rc with
  | some rcv =>
    obtain ⟨la, ln⟩ := rcv
    obtain ⟨b1, b2, b3, b4⟩ := hrc la ln rfl
    simp only [chooseCoords]
    exact ⟨by linarith, by linarith, by linarith, by linarith⟩
  | none =>
    cases sc with
    | some g =>
      obtain ⟨b1, b2, b3, b4⟩ := hsc g rfl
      simp only [chooseCoords]
      norm_num [inJitterMargin] at b1 b2 b3 b4
      exact ⟨by linarith, by linarith, by linarith, by linarith⟩
    | none =>
      simp only [chooseCoords]
      exact getCoordinates_bounds env i city state hcc hr

/-- Claim C2 counterexample: the code uses geocoding-service results
unclamped, so a service that returns latitude 1000 for a city makes the
produced location leave the world coordinate box — the claim "regardless
of what coordinates the external geocoding service returns" fails. -/
theorem claim2_counterexample :
    90 < (processADSRecord
        { trivEnv with cityCache := fun k =>
            if k = "springfield,ca" then some ⟨1000, 0, "bogus"⟩ else none }
        [] [("City", "Springfield"), ("State", "CA")] 0).1.incident.location.lat := by
  have hreal : parseNHTSACoordinates
      [("City", "Springfield"), ("State", "CA")] = none := by decide
  have hkey : cityCacheKey (cityOf [("City", "Springfield"), ("State", "CA")])
      (stateOf [("City", "Springfield"), ("State", "CA")]) = "springfield,ca" := by
    decide
  show 90 < (chooseCoords
    { trivEnv with cityCache := fun k =>
        if k = "springfield,ca" then some ⟨1000, 0, "bogus"⟩ else none }
    0 (parseNHTSACoordinates [("City", "Springfield"), ("State", "CA")])
    ((resolveStreet
      { trivEnv with cityCache := fun k =>
          if k = "springfield,ca" then some ⟨1000, 0, "bogus"⟩ else none }
      [] (parseNHTSACoordinates [("City", "Springfield"), ("State", "CA")])
      (fieldOf [("City", "Springfield"), ("State", "CA")] "Narrative")
      (cityOf [("City", "Springfield"), ("State", "CA")])
      (stateOf [("City", "Springfield"), ("State", "CA")])).2.1)
    (cityOf [("City", "Springfield"), ("State", "CA")])
    (stateOf [("City", "Springfield"), ("State", "CA")])).1
  rw [hreal]
  simp only [resolveStreet, chooseCoords, getCoordinates, trivEnv, hkey]
  norm_num

/-- Claim C2 (amended): every location an ADS or ADAS record produces is
present (the model makes the field total) with latitude in `[-90, 90]`
and longitude in `[-180, 180]`, across all four resolution tiers —
PROVIDED every coordinate the geocoding service returned (city cache,
street results, and street-cache entries from earlier in the run) lies
within `0.02°` of the world box (latitude in `[-89.98, 89.98]`,
longitude in `[-179.98, 179.98]`) and the random draws are in `[0, 1]`.
The proviso is forced by the counterexample: service results are used
unclamped, so the unconditional claim is false. -/
theorem claim2_coordinate_validity (env : Env) (cache : StreetCache)
    (rec : RawRecord) (i : ℕ)
    (henv : envGeoBounded env) (hcache : cacheGeoBounded cache)
    (hr : randBounded env i) :
    (-90 ≤ (processADSRecord env cache rec i).1.incident.location.lat
      ∧ (processADSRecord env cache rec i).1.incident.location.lat ≤ 90
      ∧ -180 ≤ (processADSRecord env cache rec i).1.incident.location.lng
      ∧ (processADSRecord env cache rec i).1.incident.location.lng ≤ 180)
    ∧ (-90 ≤ (processADASRecord env cache rec i).1.incident.location.lat
      ∧ (processADASRecord env cache rec i).1.incident.location.lat ≤ 90
      ∧ -180 ≤ (processADASRecord env cache rec i).1.incident.location.lng
      ∧ (processADASRecord env cache rec i).1.incident.location.lng ≤ 180) := by
  obtain ⟨hccB, hsvcB⟩ := henv
  have hb := chooseCoords_bounds env i (parseNHTSACoordinates rec)
    ((resolveStreet env cache (parseNHTSACoordinates rec)
      (fieldOf rec "Narrative") (cityOf rec) (stateOf rec)).2.1)
    (cityOf rec) (stateOf rec)
    (fun la ln h => parseNHTSACoordinates_bounds rec la ln h)
    (fun g h => resolveStreet_coords_bounded env cache _ _ _ _ g hsvcB hcache h)
    hccB hr
  exact ⟨⟨hb.1, hb.2.1, hb.2.2.1, hb.2.2.2⟩, ⟨hb.1, hb.2.1, hb.2.2.1, hb.2.2.2⟩⟩

/-- Claim C2 witness: the quiescent environment satisfies every proviso
and an empty record stays inside the world box. -/
theorem claim2_coordinate_validity_witness :
    -90 ≤ (processADSRecord trivEnv [] [] 0).1.incident.location.lat
    ∧ (processADSRecord trivEnv [] [] 0).1.incident.location.lat ≤ 90
    ∧ -180 ≤ (processADSRecord trivEnv [] [] 0).1.incident.location.lng
    ∧ (processADSRecord trivEnv [] [] 0).1.incident.location.lng ≤ 180 :=
  (claim2_coordinate_validity trivEnv [] [] 0
    ⟨fun k g h => by simp [trivEnv] at h, fun a c s g h => by simp [trivEnv] at h⟩
    (fun k g h => by simp at h)
    (by refine ⟨?_, ?_, ?_, ?_, ?_, ?_, ?_, ?_⟩ <;> norm_num [trivEnv])).1

/-! ## Claim C9 -/

theorem processAll_length
    (f : Env → StreetCache → RawRecord → ℕ → ProcessedIncident × StreetCache)
    (env : Env) (cache : StreetCache) (records : List RawRecord) (start : ℕ) :
    (processAll f env cache records start).1.length = records.length := by
  induction records generalizing cache start with
  | nil => rfl
  | cons r rs ih => simp [processAll, ih]

theorem processAll_raw_data
    (f : Env → StreetCache → RawRecord → ℕ → ProcessedIncident × StreetCache)
    (hf : ∀ env cache r i, (f env cache r i).1.incident.raw_data = r)
    (env : Env) (cache : StreetCache) (records : List RawRecord) (start : ℕ) :
    ∀ p ∈ (processAll f env cache records start).1,
      p.incident.raw_data ∈ records := by
  induction records generalizing cache start with
  | nil => intro p hp; cases hp
  | cons r rs ih =>
    intro p hp
    simp only [processAll, List.mem_cons] at hp
    cases hp with
    | inl h =>
      rw [h, hf]
      exact List.mem_cons_self _ _
    | inr h => exact List.mem_cons_of_mem _ (ih _ _ p h)

/-- Claim C9: one run normalizes every ADS record but only the first 500
ADAS records — the produced incident count is `|ads| + min 500 |adas|`,
and every produced incident originates (witnessed by its retained
`raw_data`) from the ADS list or from the first 500 ADAS records, so an
ADAS record at position 500 or beyond is never processed. -/
theorem claim9_adas_truncation (env : Env) (ads adas : List RawRecord) :
    (seedIncidents env ads adas).length = ads.length + min 500 adas.length
    ∧ ∀ p ∈ seedIncidents env ads adas,
        p.incident.raw_data ∈ ads ∨ p.incident.raw_data ∈ adas.take 500 := by
  constructor
  · simp only [seedIncidents, List.length_append, processAll_length,
      List.length_take]
  · intro p hp
    simp only [seedIncidents, List.mem_append] at hp
    cases hp with
    | inl h =>
      left
      exact processAll_raw_data processADSRecord (fun _ _ _ _ => rfl) _ _ _ _ p h
    | inr h =>
      right
      exact processAll_raw_data processADASRecord (fun _ _ _ _ => rfl) _ _ _ _ p h

/-- Claim C9 witness: one ADS record and two ADAS records yield three
incidents (all ADAS records processed while under the 500 cap). -/
theorem claim9_adas_truncation_witness :
    (seedIncidents trivEnv [[("Report Number", "A")]] [[], []]).length = 3 := by
  rw [(claim9_adas_truncation trivEnv [[("Report Number", "A")]] [[], []]).1]
  norm_num

/-! ## Claim C10 -/

/-- Claim C10: the state default chain is total — a missing `State` field
defaults to `CA`; a state absent from the fallback table resolves to the
California entry (the San Francisco center) with the state-level jitter;
a record with neither city nor state gets the `San Francisco` city
default; and such a record, when no higher tier applies, receives
coordinates within `0.05°` of the San Francisco center. -/
theorem claim10_unknown_state_fallback (env : Env) (cache : StreetCache)
    (rec : RawRecord) (i : ℕ) (st city : String) :
    (fieldOf rec "State" = "" → stateOf rec = "CA")
    ∧ (STATE_COORDS st = none →
       env.cityCache (cityCacheKey city st) = none →
       (getCoordinates env i city st).1
         = 37.7749 + (env.randStateLat i - 1 / 2) * (1 / 10)
       ∧ (getCoordinates env i city st).2
         = -122.4194 + (env.randStateLng i - 1 / 2) * (1 / 10))
    ∧ (fieldOf rec "State" = "" → fieldOf rec "City" = "" →
       cityOf rec = "San Francisco")
    ∧ (fieldOf rec "State" = "" → fieldOf rec "City" = "" →
       parseNHTSACoordinates rec = none →
       env.extract (fieldOf rec "Narrative") = none →
       env.cityCache (cityCacheKey "San Francisco" "CA") = none →
       randBounded env i →
       (processADSRecord env cache rec i).1.incident.city = "San Francisco"
       ∧ |(processADSRecord env cache rec i).1.incident.location.lat - 37.7749|
           ≤ 1 / 20
       ∧ |(processADSRecord env cache rec i).1.incident.location.lng + 122.4194|
           ≤ 1 / 20) := by
  have hca : STATE_COORDS "CA" = some ⟨37.7749, -122.4194, "San Francisco"⟩ := rfl
  refine ⟨fun h => by simp [stateOf, jsOr, h], fun hs hc => ?_, fun h1 h2 => ?_,
    fun h1 h2 hreal hext hcachemiss hr => ?_⟩
  · constructor <;> simp [getCoordinates, hs, hc]
  · simp [cityOf, stateOf, jsOr, h1, h2, hca]
  · have hcity : cityOf rec = "San Francisco" := by
      simp [cityOf, stateOf, jsOr, h1, h2, hca]
    have hstate : stateOf rec = "CA" := by simp [stateOf, jsOr, h1]
    have hloc : (processADSRecord env cache rec i).1.incident.location
        = ⟨-122.4194 + (env.randStateLng i - 1 / 2) * (1 / 10),
           37.7749 + (env.randStateLat i - 1 / 2) * (1 / 10)⟩ := by
      show (⟨(chooseCoords env i (parseNHTSACoordinates rec)
        ((resolveStreet env cache (parseNHTSACoordinates rec)
          (fieldOf rec "Narrative") (cityOf rec) (stateOf rec)).2.1)
        (cityOf rec) (stateOf rec)).2, _⟩ : GeoPoint) = _
      rw [hreal]
      simp [resolveStreet, chooseCoords, hext, getCoordinates, hcity, hstate,
        hcachemiss, hca]
    obtain ⟨_, _, _, _, r3a, r3b, r4a, r4b⟩ := hr
    refine ⟨by simp [processADSRecord, hcity], ?_, ?_⟩
    · rw [hloc]
      rw [abs_le]
      constructor <;> · simp only [GeoPoint.lat]; linarith
    · rw [hloc]
      rw [abs_le]
      constructor <;> · simp only [GeoPoint.lng]; linarith

/-- Claim C10 witness: the empty record under the quiescent environment
gets the San Francisco defaults. -/
theorem claim10_unknown_state_fallback_witness :
    (processADSRecord trivEnv [] [] 0).1.incident.city = "San Francisco"
    ∧ |(processADSRecord trivEnv [] [] 0).1.incident.location.lat - 37.7749|
        ≤ 1 / 20 :=
  have h := (claim10_unknown_state_fallback trivEnv [] [] 0 "ZZ" "Nowhere").2.2.2
    rfl rfl (by decide) rfl rfl
    (by refine ⟨?_, ?_, ?_, ?_, ?_, ?_, ?_, ?_⟩ <;> norm_num [trivEnv])
  ⟨h.1, h.2.1⟩

/-! ## Claim C1 -/

theorem processAll_ads_extIds (env : Env) (cache : StreetCache)
    (recs : List RawRecord) (start : ℕ) :
    ((processAll processADSRecord env cache recs start).1.map
      (fun p => p.incident.external_id)) = adsExtIds recs start := by
  induction recs generalizing cache start with
  | nil => rfl
  | cons r rs ih =>
    simp only [processAll, List.map_cons, adsExtIds, List.cons.injEq]
    exact ⟨rfl, ih _ _⟩

theorem processAll_adas_extIds (env : Env) (cache : StreetCache)
    (recs : List RawRecord) (start : ℕ) :
    ((processAll processADASRecord env cache recs start).1.map
      (fun p => p.incident.external_id)) = adasExtIds recs start := by
  induction recs generalizing cache start with
  | nil => rfl
  | cons r rs ih =>
    simp only [processAll, List.map_cons, adasExtIds, List.cons.injEq]
    exact ⟨rfl, ih _ _⟩

/-- The ids one run emits are a function of the record lists alone: the
oracles (geocoding, randomness, clock) do not appear on the right. -/
theorem seedIncidents_extIds (env : Env) (ads adas : List RawRecord) :
    (seedIncidents env ads adas).map (fun p => p.incident.external_id)
      = adsExtIds ads 0 ++ adasExtIds (adas.take 500) 0 := by
  simp [seedIncidents, processAll_ads_extIds, processAll_adas_extIds]

theorem storeIds_upsertOne (store : List IncidentInsert) (inc : IncidentInsert) :
    storeIds (upsertOne store inc) =
      if inc.external_id ∈ storeIds store then storeIds store
      else storeIds store ++ [inc.external_id] := by
  unfold upsertOne storeIds
  by_cases hm : inc.external_id ∈ store.map IncidentInsert.external_id
  · rw [if_pos ?side]
    case side =>
      rw [List.any_eq_true]
      obtain ⟨r, hr, he⟩ := List.mem_map.mp hm
      exact ⟨r, hr, by simp [he]⟩
    rw [if_pos hm, List.map_map]
    refine List.map_congr_left (fun r hr => ?_)
    simp only [Function.comp]
    split
    · rename_i h2; rw [← h2]
    · rfl
  · rw [if_neg ?side2]
    case side2 =>
      rw [List.any_eq_true]
      rintro ⟨r, hr, he⟩
      simp at he
      exact hm (List.mem_map.mpr ⟨r, hr, he⟩)
    rw [if_neg hm, List.map_append]
    rfl

theorem mem_storeIds_upsertBatch (store batch : List IncidentInsert) (x : String) :
    x ∈ storeIds (upsertBatch store batch) ↔
      x ∈ storeIds store ∨ x ∈ batch.map (fun i => i.external_id) := by
  induction batch generalizing store with
  | nil => simp [upsertBatch]
  | cons b bs ih =>
    rw [show upsertBatch store (b :: bs) = upsertBatch (upsertOne store b) bs
      from rfl]
    rw [ih, storeIds_upsertOne]
    by_cases hb : b.external_id ∈ storeIds store
    · rw [if_pos hb]
      simp only [List.map_cons, List.mem_cons]
      constructor
      · rintro (h | h)
        · exact Or.inl h
        · exact Or.inr (Or.inr h)
      · rintro (h | h | h)
        · exact Or.inl h
        · rw [h]; exact Or.inl hb
        · exact Or.inr h
    · rw [if_neg hb]
      simp only [List.map_cons, List.mem_cons, List.mem_append,
        List.mem_singleton]
      tauto

/-- A batch whose every id is already present updates rows in place and
never grows the store. -/
theorem length_upsertBatch_of_mem (store batch : List IncidentInsert)
    (h : ∀ i ∈ batch, i.external_id ∈ storeIds store) :
    (upsertBatch store batch).length = store.length := by
  induction batch generalizing store with
  | nil => rfl
  | cons b bs ih =>
    have hb := h b (List.mem_cons_self _ _)
    have hone_ids : storeIds (upsertOne store b) = storeIds store := by
      rw [storeIds_upsertOne, if_pos hb]
    have hone_len : (upsertOne store b).length = store.length := by
      have h2 := congrArg List.length hone_ids
      simpa [storeIds] using h2
    rw [show upsertBatch store (b :: bs) = upsertBatch (upsertOne store b) bs
      from rfl]
    rw [ih (upsertOne store b) ?_, hone_len]
    intro i hi
    rw [hone_ids]
    exact h i (List.mem_cons_of_mem _ hi)

/-- The upsert writer preserves uniqueness of `external_id`. -/
theorem uniqueIds_upsertBatch (store batch : List IncidentInsert)
    (h : uniqueIds store) : uniqueIds (upsertBatch store batch) := by
  induction batch generalizing store with
  | nil => exact h
  | cons b bs ih =>
    rw [show upsertBatch store (b :: bs) = upsertBatch (upsertOne store b) bs
      from rfl]
    apply ih
    unfold uniqueIds
    rw [storeIds_upsertOne]
    by_cases hb : b.external_id ∈ storeIds store
    · rw [if_pos hb]; exact h
    · rw [if_neg hb]
      rw [List.nodup_append]
      exact ⟨h, List.nodup_singleton _, by simpa using hb⟩

/-- Claim C1: re-running the normalizer plus the batch upsert writer on
the same source lists — under possibly different oracle draws in the two
runs — leaves the store with the same row count as one run; uniqueness of
`external_id` is an invariant of the writer; and each record's id is
composed deterministically from the source prefix and its report number
(or its index), independent of every oracle. -/
theorem claim1_idempotent_upsert (env1 env2 : Env) (ads adas : List RawRecord)
    (store : List IncidentInsert) (h : uniqueIds store) :
    (seedRun env2 ads adas (seedRun env1 ads adas store)).length
      = (seedRun env1 ads adas store).length
    ∧ uniqueIds (seedRun env1 ads adas store)
    ∧ uniqueIds (seedRun env2 ads adas (seedRun env1 ads adas store))
    ∧ (∀ (env : Env) (cache : StreetCache) (rec : RawRecord) (i : ℕ),
        (processADSRecord env cache rec i).1.incident.external_id
          = "nhtsa-ads-" ++ jsOr (fieldOf rec "Report Number") ("ADS-" ++ toString i))
    ∧ (∀ (env : Env) (cache : StreetCache) (rec : RawRecord) (i : ℕ),
        (processADASRecord env cache rec i).1.incident.external_id
          = "nhtsa-adas-" ++ jsOr (fieldOf rec "Report Number") ("ADAS-" ++ toString i)) := by
  refine ⟨?_, uniqueIds_upsertBatch _ _ h,
    uniqueIds_upsertBatch _ _ (uniqueIds_upsertBatch _ _ h),
    fun _ _ _ _ => rfl, fun _ _ _ _ => rfl⟩
  unfold seedRun
  apply length_upsertBatch_of_mem
  have hids1 : ((seedIncidents env1 ads adas).map ProcessedIncident.incident).map
      (fun i => i.external_id)
      = adsExtIds ads 0 ++ adasExtIds (adas.take 500) 0 := by
    rw [List.map_map]
    exact seedIncidents_extIds env1 ads adas
  have hids2 : ((seedIncidents env2 ads adas).map ProcessedIncident.incident).map
      (fun i => i.external_id)
      = adsExtIds ads 0 ++ adasExtIds (adas.take 500) 0 := by
    rw [List.map_map]
    exact seedIncidents_extIds env2 ads adas
  intro i hi
  have hmem : i.external_id ∈ adsExtIds ads 0 ++ adasExtIds (adas.take 500) 0 := by
    rw [← hids2]
    exact List.mem_map_of_mem _ hi
  exact (mem_storeIds_upsertBatch store _ _).mpr (Or.inr (hids1 ▸ hmem))

/-- Claim C1 witness: one ADS record against an empty store, seeded twice
with independent oracle draws. -/
theorem claim1_idempotent_upsert_witness :
    (seedRun trivEnv [[("Report Number", "A1")]] []
        (seedRun trivEnv [[("Report Number", "A1")]] [] [])).length
      = (seedRun trivEnv [[("Report Number", "A1")]] [] []).length
    ∧ uniqueIds (seedRun trivEnv [[("Report Number", "A1")]] [] []) :=
  have h := claim1_idempotent_upsert trivEnv trivEnv [[("Report Number", "A1")]]
    [] [] (by simp [uniqueIds, storeIds])
  ⟨h.1, h.2.1⟩

end AVWatch
